import Mathlib

/-!
Verification of the phase-space visualizer core (`src/main.rs`).

Floating-point `f64` arithmetic is modelled by exact real arithmetic over `ℝ`:
every `f64` operation of the source (addition, multiplication, division,
`sqrt`, `powi(2)`) is translated to the corresponding exact operation on `ℝ`.
Integer pixel arithmetic (`u32` / `i32` rasterizer loops) is modelled over
`ℕ` / `ℤ`; all values involved are far below the machine-width bounds, so no
wrap-around modelling is required (largest intermediate: 399^2 + 399^2 < 2^31).
-/

/-- Source constant `SCREEN_WIDTH: u32 = 400`. -/
def SCREEN_WIDTH : ℕ := 400

/-- Source constant `SCREEN_HEIGHT: u32 = 400`. -/
def SCREEN_HEIGHT : ℕ := 400

/-- Source constant `CIRCLE_RADIUS: u32 = (SCREEN_HEIGHT / 2) - 1`. -/
def CIRCLE_RADIUS : ℕ := SCREEN_HEIGHT / 2 - 1

/-- Source constant `CIRCLE_RADIUS_SQUARED: u32 = CIRCLE_RADIUS.pow(2)`. -/
def CIRCLE_RADIUS_SQUARED : ℕ := CIRCLE_RADIUS ^ 2

/-- Source constant `CIRCLE_CENTER_X: u32 = SCREEN_WIDTH / 2`. -/
def CIRCLE_CENTER_X : ℕ := SCREEN_WIDTH / 2

/-- Source constant `CIRCLE_CENTER_Y: u32 = SCREEN_HEIGHT / 2`. -/
def CIRCLE_CENTER_Y : ℕ := SCREEN_HEIGHT / 2

/-- Source constant `G: f64 = 9.8`. -/
noncomputable def G : ℝ := 9.8

/-- Source constant `TIME_STEP: f64 = 0.1`. -/
noncomputable def TIME_STEP : ℝ := 0.1

lemma CIRCLE_RADIUS_val : CIRCLE_RADIUS = 199 := rfl

lemma CIRCLE_RADIUS_SQUARED_val : CIRCLE_RADIUS_SQUARED = 39601 := rfl

lemma CIRCLE_CENTER_X_val : CIRCLE_CENTER_X = 200 := rfl

lemma CIRCLE_CENTER_Y_val : CIRCLE_CENTER_Y = 200 := rfl

/-- Embedding of `fn reflect(v_x, v_y, n_x, n_y) -> (f64, f64)`
(src/main.rs lines 46-51): specular reflection of the velocity `(v_x, v_y)`
about the normal `(n_x, n_y)`. -/
noncomputable def reflect (v_x v_y n_x n_y : ℝ) : ℝ × ℝ :=
  let dot_product := v_x * n_x + v_y * n_y
  let r_x := v_x - 2 * dot_product * n_x
  let r_y := v_y - 2 * dot_product * n_y
  (r_x, r_y)

/-- Embedding of `fn map_to_range(x, from_low, from_high, to_low, to_high)`
(src/main.rs lines 85-87). -/
noncomputable def map_to_range (x from_low from_high to_low to_high : ℝ) : ℝ :=
  (x - from_low) / (from_high - from_low) * (to_high - to_low) + to_low

/-- Embedding of `fn point_update(p_x, p_y, v_x, v_y) -> (f64, f64, f64, f64)`
(src/main.rs lines 53-83): one semi-implicit Euler step under gravity
`(0, G)` with time step `TIME_STEP`, followed by the boundary check
`distance_squared >= CIRCLE_RADIUS_SQUARED` and, when it holds, reflection of
the velocity about the inward normal and clamping of the position onto the
circle of radius `CIRCLE_RADIUS` around the center. -/
noncomputable def point_update (p_x p_y v_x v_y : ℝ) : ℝ × ℝ × ℝ × ℝ :=
  let acceleration_x : ℝ := 0
  let acceleration_y : ℝ := G
  let velocity_x := v_x + acceleration_x * TIME_STEP
  let velocity_y := v_y + acceleration_y * TIME_STEP
  let position_x := p_x + velocity_x * TIME_STEP
  let position_y := p_y + velocity_y * TIME_STEP
  let distance_squared := (position_x - (CIRCLE_CENTER_X : ℝ)) ^ 2
    + (position_y - (CIRCLE_CENTER_Y : ℝ)) ^ 2
  if distance_squared ≥ (CIRCLE_RADIUS_SQUARED : ℝ) then
    let distance := Real.sqrt distance_squared
    let r := reflect velocity_x velocity_y
      (((CIRCLE_CENTER_X : ℝ) - position_x) / distance)
      (((CIRCLE_CENTER_Y : ℝ) - position_y) / distance)
    let position_x' := (CIRCLE_CENTER_X : ℝ)
      + (CIRCLE_RADIUS : ℝ) * ((position_x - (CIRCLE_CENTER_X : ℝ)) / distance)
    let position_y' := (CIRCLE_CENTER_Y : ℝ)
      + (CIRCLE_RADIUS : ℝ) * ((position_y - (CIRCLE_CENTER_Y : ℝ)) / distance)
    (position_x', position_y', r.1, r.2)
  else
    (position_x, position_y, velocity_x, velocity_y)

/-- The velocity after the semi-implicit Euler update of `point_update`
(src/main.rs lines 57-58), before any boundary correction. -/
noncomputable def step_velocity (v_x v_y : ℝ) : ℝ × ℝ :=
  (v_x + 0 * TIME_STEP, v_y + G * TIME_STEP)

/-- The position after the semi-implicit Euler update of `point_update`
(src/main.rs lines 60-61), before any boundary correction. -/
noncomputable def step_position (p_x p_y v_x v_y : ℝ) : ℝ × ℝ :=
  (p_x + (step_velocity v_x v_y).1 * TIME_STEP,
   p_y + (step_velocity v_x v_y).2 * TIME_STEP)

/-- The post-move squared distance to the arena center computed by
`point_update` (src/main.rs lines 63-64). -/
noncomputable def step_dist_sq (p_x p_y v_x v_y : ℝ) : ℝ :=
  ((step_position p_x p_y v_x v_y).1 - (CIRCLE_CENTER_X : ℝ)) ^ 2
    + ((step_position p_x p_y v_x v_y).2 - (CIRCLE_CENTER_Y : ℝ)) ^ 2

/-- The state `point_update` returns when the boundary check fails: the plain
semi-implicit Euler result, unchanged. -/
noncomputable def euler_state (p_x p_y v_x v_y : ℝ) : ℝ × ℝ × ℝ × ℝ :=
  ((step_position p_x p_y v_x v_y).1, (step_position p_x p_y v_x v_y).2,
   (step_velocity v_x v_y).1, (step_velocity v_x v_y).2)

/-- The state `point_update` returns when the boundary check holds
(src/main.rs lines 66-79): position clamped onto the circle of radius
`CIRCLE_RADIUS`, velocity reflected about the inward normal. -/
noncomputable def corrected_state (p_x p_y v_x v_y : ℝ) : ℝ × ℝ × ℝ × ℝ :=
  ((CIRCLE_CENTER_X : ℝ) + (CIRCLE_RADIUS : ℝ)
      * (((step_position p_x p_y v_x v_y).1 - (CIRCLE_CENTER_X : ℝ))
        / Real.sqrt (step_dist_sq p_x p_y v_x v_y)),
   (CIRCLE_CENTER_Y : ℝ) + (CIRCLE_RADIUS : ℝ)
      * (((step_position p_x p_y v_x v_y).2 - (CIRCLE_CENTER_Y : ℝ))
        / Real.sqrt (step_dist_sq p_x p_y v_x v_y)),
   (reflect (step_velocity v_x v_y).1 (step_velocity v_x v_y).2
      (((CIRCLE_CENTER_X : ℝ) - (step_position p_x p_y v_x v_y).1)
        / Real.sqrt (step_dist_sq p_x p_y v_x v_y))
      (((CIRCLE_CENTER_Y : ℝ) - (step_position p_x p_y v_x v_y).2)
        / Real.sqrt (step_dist_sq p_x p_y v_x v_y))).1,
   (reflect (step_velocity v_x v_y).1 (step_velocity v_x v_y).2
      (((CIRCLE_CENTER_X : ℝ) - (step_position p_x p_y v_x v_y).1)
        / Real.sqrt (step_dist_sq p_x p_y v_x v_y))
      (((CIRCLE_CENTER_Y : ℝ) - (step_position p_x p_y v_x v_y).2)
        / Real.sqrt (step_dist_sq p_x p_y v_x v_y))).2)

/-- Closed form of `point_update`: explicit branch on the boundary check. -/
lemma point_update_closed (p_x p_y v_x v_y : ℝ) :
    point_update p_x p_y v_x v_y =
      if step_dist_sq p_x p_y v_x v_y ≥ (CIRCLE_RADIUS_SQUARED : ℝ) then
        corrected_state p_x p_y v_x v_y
      else
        euler_state p_x p_y v_x v_y := by
  simp only [point_update, corrected_state, euler_state, step_dist_sq,
    step_position, step_velocity]

/-- `point_update` on the boundary-check branch. -/
lemma point_update_of_ge (p_x p_y v_x v_y : ℝ)
    (h : step_dist_sq p_x p_y v_x v_y ≥ (CIRCLE_RADIUS_SQUARED : ℝ)) :
    point_update p_x p_y v_x v_y = corrected_state p_x p_y v_x v_y := by
  rw [point_update_closed, if_pos h]

/-- `point_update` off the boundary-check branch. -/
lemma point_update_of_lt (p_x p_y v_x v_y : ℝ)
    (h : step_dist_sq p_x p_y v_x v_y < (CIRCLE_RADIUS_SQUARED : ℝ)) :
    point_update p_x p_y v_x v_y = euler_state p_x p_y v_x v_y := by
  rw [point_update_closed, if_neg (not_le.mpr h)]

lemma step_dist_sq_nonneg (p_x p_y v_x v_y : ℝ) :
    0 ≤ step_dist_sq p_x p_y v_x v_y := by
  unfold step_dist_sq
  positivity

/-- On the correction branch the clamped position lies exactly on the circle
of radius `CIRCLE_RADIUS` around the arena center. -/
lemma corrected_state_dist_sq (p_x p_y v_x v_y : ℝ)
    (h : (CIRCLE_RADIUS_SQUARED : ℝ) ≤ step_dist_sq p_x p_y v_x v_y) :
    ((corrected_state p_x p_y v_x v_y).1 - (CIRCLE_CENTER_X : ℝ)) ^ 2
      + ((corrected_state p_x p_y v_x v_y).2.1 - (CIRCLE_CENTER_Y : ℝ)) ^ 2
      = (CIRCLE_RADIUS : ℝ) ^ 2 := by
  have hpos : 0 < step_dist_sq p_x p_y v_x v_y := by
    have h0 : (0 : ℝ) < (CIRCLE_RADIUS_SQUARED : ℝ) := by
      rw [CIRCLE_RADIUS_SQUARED_val]; norm_num
    linarith
  have hne : Real.sqrt (step_dist_sq p_x p_y v_x v_y) ≠ 0 :=
    ne_of_gt (Real.sqrt_pos.mpr hpos)
  have hsq : Real.sqrt (step_dist_sq p_x p_y v_x v_y) ^ 2
      = step_dist_sq p_x p_y v_x v_y := Real.sq_sqrt (le_of_lt hpos)
  have hab : step_dist_sq p_x p_y v_x v_y
      = ((step_position p_x p_y v_x v_y).1 - (CIRCLE_CENTER_X : ℝ)) ^ 2
        + ((step_position p_x p_y v_x v_y).2 - (CIRCLE_CENTER_Y : ℝ)) ^ 2 := rfl
  have expand : ∀ cx cy rr a b dd : ℝ, dd ≠ 0 →
      (cx + rr * (a / dd) - cx) ^ 2 + (cy + rr * (b / dd) - cy) ^ 2
        = rr ^ 2 * (a ^ 2 + b ^ 2) / dd ^ 2 := by
    intro cx cy rr a b dd hdd
    field_simp
    ring
  simp only [corrected_state]
  rw [expand _ _ _ _ _ _ hne, ← hab, hsq, mul_div_assoc,
    div_self (ne_of_gt hpos), mul_one]

/-- C1: boundary containment invariant — for every input state, the position
returned by one `point_update` step lies within distance `CIRCLE_RADIUS` of
the arena center (the program's particles are single points, so the spec's
`arena.radius − particle.radius` limit is `CIRCLE_RADIUS` itself); moreover,
whenever the post-move squared distance reaches the limit, the returned
position lies exactly on the circle of that radius (exact in the real model,
hence within any tolerance). -/
theorem point_update_contained (p_x p_y v_x v_y : ℝ) :
    Real.sqrt (((point_update p_x p_y v_x v_y).1 - (CIRCLE_CENTER_X : ℝ)) ^ 2
        + ((point_update p_x p_y v_x v_y).2.1 - (CIRCLE_CENTER_Y : ℝ)) ^ 2)
      ≤ (CIRCLE_RADIUS : ℝ) ∧
    ((CIRCLE_RADIUS_SQUARED : ℝ) ≤ step_dist_sq p_x p_y v_x v_y →
      Real.sqrt (((point_update p_x p_y v_x v_y).1 - (CIRCLE_CENTER_X : ℝ)) ^ 2
          + ((point_update p_x p_y v_x v_y).2.1 - (CIRCLE_CENTER_Y : ℝ)) ^ 2)
        = (CIRCLE_RADIUS : ℝ)) := by
  have hR : (0 : ℝ) ≤ (CIRCLE_RADIUS : ℝ) := Nat.cast_nonneg _
  constructor
  · rcases lt_or_le (step_dist_sq p_x p_y v_x v_y)
        ((CIRCLE_RADIUS_SQUARED : ℝ)) with h | h
    · rw [point_update_of_lt _ _ _ _ h]
      have hE : ((euler_state p_x p_y v_x v_y).1 - (CIRCLE_CENTER_X : ℝ)) ^ 2
          + ((euler_state p_x p_y v_x v_y).2.1 - (CIRCLE_CENTER_Y : ℝ)) ^ 2
          = step_dist_sq p_x p_y v_x v_y := rfl
      rw [hE]
      have hcast : (CIRCLE_RADIUS_SQUARED : ℝ) = (CIRCLE_RADIUS : ℝ) ^ 2 := by
        rw [CIRCLE_RADIUS_SQUARED_val, CIRCLE_RADIUS_val]; norm_num
      rw [hcast] at h
      calc Real.sqrt (step_dist_sq p_x p_y v_x v_y)
          ≤ Real.sqrt ((CIRCLE_RADIUS : ℝ) ^ 2) :=
            Real.sqrt_le_sqrt (le_of_lt h)
        _ = (CIRCLE_RADIUS : ℝ) := Real.sqrt_sq hR
    · rw [point_update_of_ge _ _ _ _ h, corrected_state_dist_sq _ _ _ _ h,
        Real.sqrt_sq hR]
  · intro h
    rw [point_update_of_ge _ _ _ _ h, corrected_state_dist_sq _ _ _ _ h,
      Real.sqrt_sq hR]

/-- Witness for C1 at a state that triggers the correction: starting from
`(0, 199.902)` at rest, the post-move distance is 200 ≥ 199. -/
theorem point_update_contained_witness :
    (CIRCLE_RADIUS_SQUARED : ℝ) ≤ step_dist_sq 0 199.902 0 0 ∧
      Real.sqrt (((point_update 0 199.902 0 0).1 - (CIRCLE_CENTER_X : ℝ)) ^ 2
          + ((point_update 0 199.902 0 0).2.1 - (CIRCLE_CENTER_Y : ℝ)) ^ 2)
        = (CIRCLE_RADIUS : ℝ) := by
  have h : (CIRCLE_RADIUS_SQUARED : ℝ) ≤ step_dist_sq 0 199.902 0 0 := by
    simp only [step_dist_sq, step_position, step_velocity, TIME_STEP, G,
      CIRCLE_CENTER_X_val, CIRCLE_CENTER_Y_val, CIRCLE_RADIUS_SQUARED_val]
    norm_num
  exact ⟨h, (point_update_contained 0 199.902 0 0).2 h⟩

/-- C7: the division by `distance` in the correction branch of `point_update`
never divides by zero — the branch is entered only when the post-move squared
distance is at least `CIRCLE_RADIUS_SQUARED > 0`, so
`distance = sqrt(distance_squared) > 0` there, and the inward reflection
normal is a unit vector (in particular it has nonzero length). -/
theorem point_update_no_div_by_zero (p_x p_y v_x v_y : ℝ)
    (h : (CIRCLE_RADIUS_SQUARED : ℝ) ≤ step_dist_sq p_x p_y v_x v_y) :
    0 < Real.sqrt (step_dist_sq p_x p_y v_x v_y) ∧
      (((CIRCLE_CENTER_X : ℝ) - (step_position p_x p_y v_x v_y).1)
          / Real.sqrt (step_dist_sq p_x p_y v_x v_y)) ^ 2
        + (((CIRCLE_CENTER_Y : ℝ) - (step_position p_x p_y v_x v_y).2)
          / Real.sqrt (step_dist_sq p_x p_y v_x v_y)) ^ 2 = 1 := by
  have hpos : 0 < step_dist_sq p_x p_y v_x v_y := by
    have h0 : (0 : ℝ) < (CIRCLE_RADIUS_SQUARED : ℝ) := by
      rw [CIRCLE_RADIUS_SQUARED_val]; norm_num
    linarith
  have hd : 0 < Real.sqrt (step_dist_sq p_x p_y v_x v_y) :=
    Real.sqrt_pos.mpr hpos
  refine ⟨hd, ?_⟩
  have hsq : Real.sqrt (step_dist_sq p_x p_y v_x v_y) ^ 2
      = step_dist_sq p_x p_y v_x v_y := Real.sq_sqrt (le_of_lt hpos)
  have hab : step_dist_sq p_x p_y v_x v_y
      = ((step_position p_x p_y v_x v_y).1 - (CIRCLE_CENTER_X : ℝ)) ^ 2
        + ((step_position p_x p_y v_x v_y).2 - (CIRCLE_CENTER_Y : ℝ)) ^ 2 := rfl
  rw [div_pow, div_pow, div_add_div_same, hsq]
  rw [show ((CIRCLE_CENTER_X : ℝ) - (step_position p_x p_y v_x v_y).1) ^ 2
        + ((CIRCLE_CENTER_Y : ℝ) - (step_position p_x p_y v_x v_y).2) ^ 2
      = step_dist_sq p_x p_y v_x v_y by rw [hab]; ring]
  exact div_self (ne_of_gt hpos)

/-- Witness for C7 at the state `(600, 199.902)` at rest: post-move distance
400, squared 160000 ≥ 39601, and the computed distance is positive. -/
theorem point_update_no_div_by_zero_witness :
    (CIRCLE_RADIUS_SQUARED : ℝ) ≤ step_dist_sq 600 199.902 0 0 ∧
      0 < Real.sqrt (step_dist_sq 600 199.902 0 0) := by
  have h : (CIRCLE_RADIUS_SQUARED : ℝ) ≤ step_dist_sq 600 199.902 0 0 := by
    simp only [step_dist_sq, step_position, step_velocity, TIME_STEP, G,
      CIRCLE_CENTER_X_val, CIRCLE_CENTER_Y_val, CIRCLE_RADIUS_SQUARED_val]
    norm_num
  exact ⟨h, (point_update_no_div_by_zero 600 199.902 0 0 h).1⟩

/-- C2: reflection preserves speed — for every velocity `(v_x, v_y)` and
every unit normal `(n_x, n_y)`, the reflected velocity
`v − 2·(v·n)·n` computed by `reflect` has the same squared magnitude as the
incoming velocity (elastic, lossless bounce; exact in the real model). -/
theorem reflect_preserves_speed (v_x v_y n_x n_y : ℝ)
    (h : n_x ^ 2 + n_y ^ 2 = 1) :
    (reflect v_x v_y n_x n_y).1 ^ 2 + (reflect v_x v_y n_x n_y).2 ^ 2
      = v_x ^ 2 + v_y ^ 2 := by
  simp only [reflect]
  linear_combination (4 * (v_x * n_x + v_y * n_y) ^ 2) * h

/-- Witness for C2 at velocity `(1, 2)` and unit normal `(3/5, 4/5)`. -/
theorem reflect_preserves_speed_witness :
    ((3 : ℝ) / 5) ^ 2 + ((4 : ℝ) / 5) ^ 2 = 1 ∧
      (reflect 1 2 (3 / 5) (4 / 5)).1 ^ 2 + (reflect 1 2 (3 / 5) (4 / 5)).2 ^ 2
        = (1 : ℝ) ^ 2 + 2 ^ 2 :=
  ⟨by norm_num, reflect_preserves_speed 1 2 (3 / 5) (4 / 5) (by norm_num)⟩

/-- C6: `map_to_range` round-trips — for every value `v` and all
non-degenerate ranges (`a ≠ b`, `c ≠ d`),
`map_to_range (map_to_range v a b c d) c d a b = v` (exact in the real
model). -/
theorem map_to_range_round_trip (v a b c d : ℝ) (hab : a ≠ b) (hcd : c ≠ d) :
    map_to_range (map_to_range v a b c d) c d a b = v := by
  have h1 : b - a ≠ 0 := sub_ne_zero.mpr (Ne.symm hab)
  have h2 : d - c ≠ 0 := sub_ne_zero.mpr (Ne.symm hcd)
  simp only [map_to_range]
  field_simp
  ring

/-- Witness for C6 at `v = 3`, ranges `[0, 2]` and `[10, 20]`. -/
theorem map_to_range_round_trip_witness :
    (0 : ℝ) ≠ 2 ∧ (10 : ℝ) ≠ 20 ∧
      map_to_range (map_to_range 3 0 2 10 20) 10 20 0 2 = 3 :=
  ⟨by norm_num, by norm_num,
    map_to_range_round_trip 3 0 2 10 20 (by norm_num) (by norm_num)⟩

/-- The rasterizer's per-pixel disk test (src/main.rs lines 157-165, and the
same loop in scenes 2-5): a pixel `(col, row)` is painted (or a grid cell
receives a particle) unless `x^2 + y^2 > CIRCLE_RADIUS_SQUARED`, with
`x = col - CIRCLE_CENTER_X` and `y = row - CIRCLE_CENTER_Y` over `i32`. -/
def disk_hit (col row : ℕ) : Bool :=
  !(decide ((CIRCLE_RADIUS_SQUARED : ℤ)
    < ((col : ℤ) - (CIRCLE_CENTER_X : ℤ)) ^ 2
      + ((row : ℤ) - (CIRCLE_CENTER_Y : ℤ)) ^ 2))

/-- The per-interior-pixel particle population built by `scene_4` and
`scene_5` (src/main.rs lines 367-383 and 464-482): rows outer, columns inner,
keeping the cells that pass `disk_hit`; each kept cell `(col, row)` becomes a
particle at position `(col, row)`. -/
def scene_population : List (ℕ × ℕ) :=
  (List.range SCREEN_HEIGHT).flatMap fun row =>
    ((List.range SCREEN_WIDTH).filter fun col => disk_hit col row).map
      fun col => (col, row)

lemma disk_hit_iff (col row : ℕ) :
    disk_hit col row = true ↔
      ((col : ℤ) - (CIRCLE_CENTER_X : ℤ)) ^ 2
        + ((row : ℤ) - (CIRCLE_CENTER_Y : ℤ)) ^ 2
        ≤ (CIRCLE_RADIUS_SQUARED : ℤ) := by
  simp [disk_hit, not_lt]

lemma mem_scene_population (col row : ℕ) :
    (col, row) ∈ scene_population ↔
      col < SCREEN_WIDTH ∧ row < SCREEN_HEIGHT ∧ disk_hit col row = true := by
  simp only [scene_population, List.mem_flatMap, List.mem_map, List.mem_filter,
    List.mem_range, Prod.mk.injEq]
  constructor
  · rintro ⟨r, hr, c, ⟨hc, hd⟩, rfl, rfl⟩
    exact ⟨hc, hr, hd⟩
  · rintro ⟨hc, hr, hd⟩
    exact ⟨row, hr, col, ⟨hc, hd⟩, rfl, rfl⟩

/-- C5 counterexample: the pixel `(399, 200)` sits at squared distance
exactly `CIRCLE_RADIUS_SQUARED` from the disk center (`199^2 = 39601`), so a
strict-interior test would exclude it, yet the code paints it (its check is
`> → skip`, i.e. non-strict containment). -/
theorem disk_fill_boundary_pixel :
    disk_hit 399 200 = true ∧
      ¬(((399 : ℤ) - (CIRCLE_CENTER_X : ℤ)) ^ 2
          + ((200 : ℤ) - (CIRCLE_CENTER_Y : ℤ)) ^ 2
        < (CIRCLE_RADIUS_SQUARED : ℤ)) := by
  decide

/-- C5 amended: a buffer pixel is painted by the arena-disk fill, and an
integer grid cell receives a particle at scene setup, exactly when the
squared distance of its center to the disk center is at most (non-strict
`<=`) the squared radius; cells at exact equality are included. -/
theorem disk_fill_interior_test (col row : ℕ) :
    (disk_hit col row = true ↔
      ((col : ℤ) - (CIRCLE_CENTER_X : ℤ)) ^ 2
        + ((row : ℤ) - (CIRCLE_CENTER_Y : ℤ)) ^ 2
        ≤ (CIRCLE_RADIUS_SQUARED : ℤ)) ∧
    ((col, row) ∈ scene_population ↔
      col < SCREEN_WIDTH ∧ row < SCREEN_HEIGHT ∧
        ((col : ℤ) - (CIRCLE_CENTER_X : ℤ)) ^ 2
          + ((row : ℤ) - (CIRCLE_CENTER_Y : ℤ)) ^ 2
          ≤ (CIRCLE_RADIUS_SQUARED : ℤ)) := by
  refine ⟨disk_hit_iff col row, ?_⟩
  rw [mem_scene_population, disk_hit_iff]

/-- Witness for C5 (amended) at the center cell `(200, 200)`. -/
theorem disk_fill_interior_test_witness :
    disk_hit 200 200 = true ∧ (200, 200) ∈ scene_population :=
  ⟨(disk_fill_interior_test 200 200).1.mpr (by decide),
   (disk_fill_interior_test 200 200).2.mpr ⟨by decide, by decide, by decide⟩⟩

/-- Byte length of the RGBA frame buffer: `width * height * 4`. -/
def frame_len : ℕ := SCREEN_WIDTH * SCREEN_HEIGHT * 4

/-- Byte index of the first byte written for the pixel `(x, y)`:
`(y * SCREEN_WIDTH + x) * 4` (src/main.rs lines 180, 442, 539-541). -/
def draw_index (x y : ℕ) : ℕ := (y * SCREEN_WIDTH + x) * 4

/-- The bounds guard of the point-drawing code (src/main.rs lines 175-179):
`x >= 0 && x < SCREEN_WIDTH && y >= 0 && y < SCREEN_HEIGHT` over `i32`. -/
def point_in_bounds (x y : ℤ) : Bool :=
  decide (0 ≤ x) && decide (x < (SCREEN_WIDTH : ℤ))
    && decide (0 ≤ y) && decide (y < (SCREEN_HEIGHT : ℤ))

/-- C8: every frame-buffer write stays inside the `width*height*4`-byte view.
Guarded point draws write at `draw_index` only when `point_in_bounds` holds,
and then the 4 written bytes fit; the phase-space scene's unguarded writes at
the particles' initial grid cells fit as well, because every populated cell
lies inside the screen extent. -/
theorem frame_writes_in_bounds :
    (∀ x y : ℤ, point_in_bounds x y = true →
      draw_index x.toNat y.toNat + 4 ≤ frame_len) ∧
    (∀ cr : ℕ × ℕ, cr ∈ scene_population →
      draw_index cr.1 cr.2 + 4 ≤ frame_len) := by
  have hmain : ∀ x y : ℕ, x < SCREEN_WIDTH → y < SCREEN_HEIGHT →
      draw_index x y + 4 ≤ frame_len := by
    intro x y hx hy
    simp only [SCREEN_WIDTH] at hx
    simp only [SCREEN_HEIGHT] at hy
    simp only [draw_index, frame_len, SCREEN_WIDTH, SCREEN_HEIGHT]
    omega
  constructor
  · intro x y h
    simp only [point_in_bounds, Bool.and_eq_true, decide_eq_true_eq] at h
    obtain ⟨⟨⟨hx0, hxw⟩, hy0⟩, hyh⟩ := h
    apply hmain
    · simp only [SCREEN_WIDTH] at hxw ⊢
      omega
    · simp only [SCREEN_HEIGHT] at hyh ⊢
      omega
  · rintro ⟨col, row⟩ hmem
    rw [mem_scene_population] at hmem
    exact hmain col row hmem.1 hmem.2.1

/-- Witness for C8: the guarded draw at `(10, 20)` and the scene-5 write for
the populated cell `(200, 200)` are both in bounds. -/
theorem frame_writes_in_bounds_witness :
    draw_index (Int.toNat 10) (Int.toNat 20) + 4 ≤ frame_len ∧
      draw_index 200 200 + 4 ≤ frame_len :=
  ⟨frame_writes_in_bounds.1 10 20 (by decide),
   frame_writes_in_bounds.2 (200, 200)
     ((mem_scene_population 200 200).mpr ⟨by decide, by decide, by decide⟩)⟩

/-- Reference definition following the spec's words (section 4.1 step b):
outward unit normal `n = (position − arena.center) / d` at the post-move
position, with `d = sqrt(d²)`. Used to compare the code's inward-normal
reflection against the spec's outward-normal formulation. -/
noncomputable def spec_outward_normal (p_x p_y v_x v_y : ℝ) : ℝ × ℝ :=
  (((step_position p_x p_y v_x v_y).1 - (CIRCLE_CENTER_X : ℝ))
      / Real.sqrt (step_dist_sq p_x p_y v_x v_y),
   ((step_position p_x p_y v_x v_y).2 - (CIRCLE_CENTER_Y : ℝ))
      / Real.sqrt (step_dist_sq p_x p_y v_x v_y))

/-- Reference definition following the spec's words (section 4.1 step c):
reflected velocity `v' = v − 2·(v·n)·n` with `n` the outward unit normal and
`v` the Euler-updated velocity. -/
noncomputable def spec_reflected_velocity (p_x p_y v_x v_y : ℝ) : ℝ × ℝ :=
  ((step_velocity v_x v_y).1
      - 2 * ((step_velocity v_x v_y).1 * (spec_outward_normal p_x p_y v_x v_y).1
          + (step_velocity v_x v_y).2 * (spec_outward_normal p_x p_y v_x v_y).2)
        * (spec_outward_normal p_x p_y v_x v_y).1,
   (step_velocity v_x v_y).2
      - 2 * ((step_velocity v_x v_y).1 * (spec_outward_normal p_x p_y v_x v_y).1
          + (step_velocity v_x v_y).2 * (spec_outward_normal p_x p_y v_x v_y).2)
        * (spec_outward_normal p_x p_y v_x v_y).2)

/-- C4: in the correction branch, the velocity `point_update` returns equals
the spec's reference formula `v − 2·(v·n)·n` with `n` the OUTWARD unit
normal; reflecting about the inward normal, as the code does, yields the
identical vector. -/
theorem point_update_outward_normal (p_x p_y v_x v_y : ℝ)
    (h : (CIRCLE_RADIUS_SQUARED : ℝ) ≤ step_dist_sq p_x p_y v_x v_y) :
    ((point_update p_x p_y v_x v_y).2.2.1, (point_update p_x p_y v_x v_y).2.2.2)
      = spec_reflected_velocity p_x p_y v_x v_y := by
  rw [point_update_of_ge _ _ _ _ h]
  simp only [corrected_state, reflect, spec_reflected_velocity,
    spec_outward_normal, Prod.mk.injEq]
  constructor <;> ring

/-- Witness for C4 at the state `(500, 199.902)` at rest: post-move position
`(500, 200)`, squared distance 90000 ≥ 39601 triggers the branch. -/
theorem point_update_outward_normal_witness :
    (CIRCLE_RADIUS_SQUARED : ℝ) ≤ step_dist_sq 500 199.902 0 0 ∧
      ((point_update 500 199.902 0 0).2.2.1, (point_update 500 199.902 0 0).2.2.2)
        = spec_reflected_velocity 500 199.902 0 0 := by
  have h : (CIRCLE_RADIUS_SQUARED : ℝ) ≤ step_dist_sq 500 199.902 0 0 := by
    simp only [step_dist_sq, step_position, step_velocity, TIME_STEP, G,
      CIRCLE_CENTER_X_val, CIRCLE_CENTER_Y_val, CIRCLE_RADIUS_SQUARED_val]
    norm_num
  exact ⟨h, point_update_outward_normal 500 199.902 0 0 h⟩

/-- C3 counterexample: the state `(398, 199.902)` with velocity `(10, 0)`
moves to `(399, 200)`, whose squared distance to the center is exactly
`CIRCLE_RADIUS_SQUARED = 39601`; the code's non-strict `>=` check fires and
the returned x-velocity is `-10`, not the unchanged Euler x-velocity `10` —
refuting the claim that no correction is applied at exact equality. -/
theorem point_update_boundary_equality_corrects :
    step_dist_sq 398 199.902 10 0 = (CIRCLE_RADIUS_SQUARED : ℝ) ∧
      (point_update 398 199.902 10 0).2.2.1 = -10 ∧
      (step_velocity 10 0).1 = 10 := by
  have hds : step_dist_sq 398 199.902 10 0 = (CIRCLE_RADIUS_SQUARED : ℝ) := by
    simp only [step_dist_sq, step_position, step_velocity, TIME_STEP, G,
      CIRCLE_CENTER_X_val, CIRCLE_CENTER_Y_val, CIRCLE_RADIUS_SQUARED_val]
    norm_num
  have hsqrt : Real.sqrt (step_dist_sq 398 199.902 10 0) = 199 := by
    rw [hds, CIRCLE_RADIUS_SQUARED_val,
      show ((39601 : ℕ) : ℝ) = (199 : ℝ) ^ 2 by norm_num]
    exact Real.sqrt_sq (by norm_num)
  refine ⟨hds, ?_, by simp only [step_velocity]; rw [TIME_STEP]; norm_num⟩
  rw [point_update_of_ge _ _ _ _ (le_of_eq hds.symm)]
  simp only [corrected_state, reflect]
  rw [hsqrt]
  simp only [step_position, step_velocity, TIME_STEP, G,
    CIRCLE_CENTER_X_val, CIRCLE_CENTER_Y_val]
  norm_num

/-- C3 amended: the integrator applies its boundary-reflection correction if
and only if the post-move squared distance is at least the squared limit
(non-strict `>=`, as the source's check on line 65); in particular, when the
squared distance equals the limit exactly the correction branch IS taken —
the clamp leaves the position on the boundary circle but the velocity is
reflected. Below the limit the Euler state is returned unchanged. -/
theorem point_update_branch_policy (p_x p_y v_x v_y : ℝ) :
    (step_dist_sq p_x p_y v_x v_y < (CIRCLE_RADIUS_SQUARED : ℝ) →
      point_update p_x p_y v_x v_y = euler_state p_x p_y v_x v_y) ∧
    ((CIRCLE_RADIUS_SQUARED : ℝ) ≤ step_dist_sq p_x p_y v_x v_y →
      point_update p_x p_y v_x v_y = corrected_state p_x p_y v_x v_y) :=
  ⟨point_update_of_lt p_x p_y v_x v_y, point_update_of_ge p_x p_y v_x v_y⟩

/-- Witness for C3 (amended) at the interior state `(200, 200)` with velocity
`(2, 0)` (scene 1's initial state): the check fails and the Euler state is
returned unchanged. -/
theorem point_update_branch_policy_witness :
    step_dist_sq 200 200 2 0 < (CIRCLE_RADIUS_SQUARED : ℝ) ∧
      point_update 200 200 2 0 = euler_state 200 200 2 0 := by
  have h : step_dist_sq 200 200 2 0 < (CIRCLE_RADIUS_SQUARED : ℝ) := by
    simp only [step_dist_sq, step_position, step_velocity, TIME_STEP, G,
      CIRCLE_CENTER_X_val, CIRCLE_CENTER_Y_val, CIRCLE_RADIUS_SQUARED_val]
    norm_num
  exact ⟨h, (point_update_branch_policy 200 200 2 0).1 h⟩

/-- C10: semi-implicit Euler scenario — starting at the arena center
`(200, 200)` with velocity `(10, 0)`, gravity `(0, 9.8)` and `dt = 0.1`, one
`point_update` step returns velocity `(10, 0.98)` and position
`(200 + 1.0, 200 + 0.098)` (velocity updated before the position), and the
post-move squared distance stays below `CIRCLE_RADIUS_SQUARED`, so the
boundary-reflection correction is not triggered. -/
theorem point_update_center_scenario :
    point_update 200 200 10 0
        = ((200 : ℝ) + 1.0, (200 : ℝ) + 0.098, 10, 0.98) ∧
      step_dist_sq 200 200 10 0 < (CIRCLE_RADIUS_SQUARED : ℝ) := by
  have hlt : step_dist_sq 200 200 10 0 < (CIRCLE_RADIUS_SQUARED : ℝ) := by
    simp only [step_dist_sq, step_position, step_velocity, TIME_STEP, G,
      CIRCLE_CENTER_X_val, CIRCLE_CENTER_Y_val, CIRCLE_RADIUS_SQUARED_val]
    norm_num
  refine ⟨?_, hlt⟩
  rw [point_update_of_lt 200 200 10 0 hlt]
  simp only [euler_state, step_position, step_velocity, TIME_STEP, G,
    Prod.mk.injEq]
  norm_num

/-- The scene presets selectable from the command line (src/main.rs
lines 36-43). -/
inductive Scene
  | scene_1
  | scene_2
  | scene_3
  | scene_4
  | scene_5
  deriving DecidableEq

/-- Source constant `DEFAULT_SCENE: &str = "1"`. -/
def DEFAULT_SCENE : String := "1"

/-- Model of Rust's `str::parse::<u32>` used in `main` (src/main.rs
line 33): an optional leading `+` followed by one or more ASCII digits;
anything else, the empty string, and values at or above `2^32` are parse
errors. -/
def parse_u32 (s : String) : Option ℕ :=
  let cs := if s.toList.head? = some '+' then s.toList.tail else s.toList
  if cs.isEmpty then none
  else if cs.all (fun c => c.isDigit) then
    let v := cs.foldl (fun n c => n * 10 + (c.toNat - 48)) 0
    if v < 2 ^ 32 then some v else none
  else none

/-- Embedding of the scene selection in `main` (src/main.rs lines 28-44):
take positional argument 1, falling back to `DEFAULT_SCENE` when absent,
parse it as `u32` falling back to `1` on a parse error, and dispatch on the
result with `scene_1` as the catch-all arm. -/
def select_scene (args : List String) : Scene :=
  let scene := (parse_u32 ((args.get? 1).getD DEFAULT_SCENE)).getD 1
  match scene with
  | 1 => Scene.scene_1
  | 2 => Scene.scene_2
  | 3 => Scene.scene_3
  | 4 => Scene.scene_4
  | 5 => Scene.scene_5
  | _ => Scene.scene_1

/-- C9: scene selection is total and never errors — when the positional
argument is absent, `select_scene` runs scene 1 (the default string `"1"`
parses to 1); when the argument fails to parse as `u32`, the fallback value 1
again selects scene 1; and when it parses to an integer outside the
recognized set `{1, 2, 3, 4, 5}`, the catch-all arm selects scene 1. Being a
total function, `select_scene` maps every argument vector to exactly one
scene. -/
theorem select_scene_total_default (args : List String) :
    (args.get? 1 = none → select_scene args = Scene.scene_1) ∧
    (∀ s, args.get? 1 = some s → parse_u32 s = none →
      select_scene args = Scene.scene_1) ∧
    (∀ s n, args.get? 1 = some s → parse_u32 s = some n →
      n ∉ ({1, 2, 3, 4, 5} : Finset ℕ) → select_scene args = Scene.scene_1) := by
  refine ⟨?_, ?_, ?_⟩
  · intro h
    simp only [select_scene, h, Option.getD_none]
    rfl
  · intro s h hp
    simp only [select_scene, h, Option.getD_some, hp, Option.getD_none]
  · intro s n h hp hn
    simp only [select_scene, h, Option.getD_some, hp]
    rcases n with _ | _ | _ | _ | _ | _ | m
    · rfl
    · exact absurd (by decide) hn
    · exact absurd (by decide) hn
    · exact absurd (by decide) hn
    · exact absurd (by decide) hn
    · exact absurd (by decide) hn
    · rfl

/-- Witness for C9: no argument, an unparseable argument, and an out-of-range
argument all select scene 1. -/
theorem select_scene_total_default_witness :
    select_scene [] = Scene.scene_1 ∧
      select_scene ["prog", "abc"] = Scene.scene_1 ∧
      select_scene ["prog", "7"] = Scene.scene_1 :=
  ⟨(select_scene_total_default []).1 rfl,
   (select_scene_total_default ["prog", "abc"]).2.1 "abc" rfl (by decide),
   (select_scene_total_default ["prog", "7"]).2.2 "7" 7 rfl (by decide)
     (by decide)⟩
